import Mathlib

set_option maxHeartbeats 1000000
set_option maxRecDepth 20000

/-!
Shallow embedding of the clinical-response pipeline of AIJ-Connect:

* `mobile_app/ui_visita.py`: the advisory-response normalizer
  `limpiar_respuesta_ia` (with its inner `_normalizar_schema`) and the
  decision-classification logic of `render_nueva_visita`
  (`_coerce_text`, `_es_rechazo_por_texto`, the `es_valido` / `decision`
  computation).
* `mobile_app/patient_bot.py`: the patient-query responder
  `responder_duda_paciente` and the medication extractor
  `_extraer_medicaciones_del_plan`.

Python JSON-like values are modelled by `JVal`; dict lookup, truthiness,
`or`, `str()`, `json.dumps`, `.lower()`, `.strip()`, `.replace()`,
substring `in`, `str.split(sep)[-1]` and the dose regex
`variante[^\d]*(\d+(?:[.,]\d+)?)\s*mg` are modelled explicitly below.
The external `json_repair.repair_json` call and the external RAG
collaborators (`cargar_conocimiento` / `consultar_rag`) are opaque
parameters; an exception raised by a collaborator is an `Except.error`
or, for `repair_json`, `Option.none`.
-/

namespace AIJ

/-- A Python JSON-like value (the payloads that flow through the
normalizer and the classifier). -/
inductive JVal where
  | jnull
  | jbool (b : Bool)
  | jnum (n : Int)
  | jstr (s : String)
  | jarr (xs : List JVal)
  | jobj (fields : List (String × JVal))

/-- A Python dict with string keys, in insertion order (Python dicts keep
insertion order; keys are unique). -/
abbrev JObj := List (String × JVal)

/-- Python `d[k]` / `d.get(k)` key lookup (first matching key). -/
def lookupK : JObj → String → Option JVal
  | [], _ => none
  | (k, v) :: t, q => if k == q then some v else lookupK t q

/-- Python `k in d` for a dict. -/
def pyIn (k : String) (o : JObj) : Bool := (lookupK o k).isSome

/-- Python `d.get(k)`: `None` when the key is absent. -/
def pyGetV (o : JObj) (k : String) : JVal := (lookupK o k).getD .jnull

/-- Python `d.get(k, dflt)`: the default is used only when the key is
absent (a stored `None` is returned as `None`). -/
def pyGetD (o : JObj) (k : String) (dflt : JVal) : JVal :=
  (lookupK o k).getD dflt

/-- Python `d.get(k1, d.get(k2))`. -/
def pyGetKD (o : JObj) (k1 k2 : String) : JVal :=
  match lookupK o k1 with
  | some v => v
  | none => pyGetV o k2

/-- Python truthiness of a JSON-like value. -/
def truthy : JVal → Bool
  | .jnull => false
  | .jbool b => b
  | .jnum n => n != 0
  | .jstr s => s != ""
  | .jarr xs => !xs.isEmpty
  | .jobj fs => !fs.isEmpty

/-- Python `a or b` on values (returns the first truthy operand, else the
last operand). -/
def pyOr (a b : JVal) : JVal := if truthy a then a else b

/-- Python `v is True` (identity with the `True` literal; `1 is True` is
false). -/
def isTrue : JVal → Bool
  | .jbool true => true
  | _ => false

/-- Python `str.lower()` restricted to the ASCII and Latin-1 letters that
occur in this application (A-Z and the accented capitals À-Þ other than
the multiplication sign map to their lowercase forms, as in Python). -/
def charLowerEs (c : Char) : Char :=
  if 65 ≤ c.toNat && c.toNat ≤ 90 then Char.ofNat (c.toNat + 32)
  else if 192 ≤ c.toNat && c.toNat ≤ 222 && c.toNat != 215 then Char.ofNat (c.toNat + 32)
  else c

/-- `s.lower()` over a whole string. -/
def toLowerEs (s : String) : String := String.mk (s.data.map charLowerEs)

/-- The characters stripped by Python `str.strip()` (ASCII whitespace:
space, tab, newline, carriage return, vertical tab, form feed). -/
def esEspacioPy (c : Char) : Bool :=
  c == ' ' || c == '\t' || c == '\n' || c == '\r' || c.toNat == 11 || c.toNat == 12

/-- Python `str.strip()`. -/
def pyStrip (s : String) : String :=
  String.mk (((s.data.dropWhile esEspacioPy).reverse.dropWhile esEspacioPy).reverse)

/-- Does `sub` occur at the start of `l`? (list-of-chars version of
`str.startswith`). -/
def empiezaCon : List Char → List Char → Bool
  | [], _ => true
  | _ :: _, [] => false
  | a :: as, b :: bs => a == b && empiezaCon as bs

/-- Does `sub` occur somewhere inside `l`? (Python substring `in`). -/
def contieneL (sub : List Char) : List Char → Bool
  | [] => sub.isEmpty
  | c :: t => empiezaCon sub (c :: t) || contieneL sub t

/-- Python `sub in s` on strings. -/
def contiene (s sub : String) : Bool := contieneL sub.data s.data

/-- Index of the first occurrence of `sub` in `l` (Python `str.find`,
in the cases where the substring is present). -/
def buscaIdx (sub : List Char) : List Char → Option Nat
  | [] => if sub.isEmpty then some 0 else none
  | c :: t =>
    if empiezaCon sub (c :: t) then some 0
    else (buscaIdx sub t).map (· + 1)

/-- Python `s.replace(pat, rep)` for a non-empty pattern: left-to-right,
non-overlapping. -/
def reemplaza (pat rep : List Char) (l : List Char) : List Char :=
  match l with
  | [] => []
  | c :: t =>
    if h : pat ≠ [] ∧ empiezaCon pat (c :: t) = true then
      rep ++ reemplaza pat rep ((c :: t).drop pat.length)
    else
      c :: reemplaza pat rep t
termination_by l.length
decreasing_by
  · simp only [List.length_drop, List.length_cons]
    have : 1 ≤ pat.length := by
      cases hp : pat with
      | nil => exact absurd hp h.1
      | cons a b => simp
    omega
  · simp

/-- The remainder of `l` after the first occurrence of `sep` (scanning
left to right), if any. -/
def trasOcurrencia (sep : List Char) : List Char → Option (List Char)
  | [] => none
  | c :: t =>
    if empiezaCon sep (c :: t) then some ((c :: t).drop sep.length)
    else trasOcurrencia sep t

/-- Python `s.split(sep)[-1]`: the part of `l` after the last
occurrence of `sep` (the whole of `l` when `sep` does not occur). -/
def trasUltimoL (sep : List Char) (l : List Char) : List Char :=
  match h : trasOcurrencia sep l with
  | none => l
  | some r =>
    if hs : sep = [] then r
    else trasUltimoL sep r
termination_by l.length
decreasing_by
  have aux : ∀ (u v : List Char), trasOcurrencia sep u = some v → v.length < u.length := by
    intro u
    induction u with
    | nil => intro v hv; simp [trasOcurrencia] at hv
    | cons c t ih =>
      intro v hv
      rw [trasOcurrencia] at hv
      by_cases hp : empiezaCon sep (c :: t) = true
      · rw [if_pos hp] at hv
        cases hv
        simp only [List.length_drop, List.length_cons]
        have h1 : 1 ≤ sep.length := by
          cases hq : sep with
          | nil => exact absurd hq hs
          | cons a b => simp
        omega
      · rw [if_neg hp] at hv
        have := ih v hv
        simp only [List.length_cons]
        omega
  exact aux l r h

/-- JSON string escaping as performed by `json.dumps` (the escapes that
can arise from this application's payloads). -/
def escapaJson (s : String) : String :=
  String.mk (s.data.foldr
    (fun c acc =>
      match c with
      | '"' => '\\' :: '"' :: acc
      | '\\' => '\\' :: '\\' :: acc
      | '\n' => '\\' :: 'n' :: acc
      | '\t' => '\\' :: 't' :: acc
      | '\r' => '\\' :: 'r' :: acc
      | c => c :: acc) [])

mutual
/-- `json.dumps(v, ensure_ascii=False)` with the default separators. -/
def dumps : JVal → String
  | .jnull => "null"
  | .jbool true => "true"
  | .jbool false => "false"
  | .jnum n => toString n
  | .jstr s => "\"" ++ escapaJson s ++ "\""
  | .jarr xs => "[" ++ dumpsLista xs ++ "]"
  | .jobj fs => "\x7b" ++ dumpsCampos fs ++ "\x7d"

def dumpsLista : List JVal → String
  | [] => ""
  | [x] => dumps x
  | x :: y :: t => dumps x ++ ", " ++ dumpsLista (y :: t)

def dumpsCampos : List (String × JVal) → String
  | [] => ""
  | [(k, v)] => "\"" ++ escapaJson k ++ "\": " ++ dumps v
  | (k, v) :: y :: t => "\"" ++ escapaJson k ++ "\": " ++ dumps v ++ ", " ++ dumpsCampos (y :: t)
end

mutual
/-- Python `repr` on JSON-like values (used through `str()` of a
container in f-strings); string quoting is modelled without inner-quote
escaping, which the claims never exercise. -/
def pyRepr : JVal → String
  | .jnull => "None"
  | .jbool true => "True"
  | .jbool false => "False"
  | .jnum n => toString n
  | .jstr s => "\x27" ++ s ++ "\x27"
  | .jarr xs => "[" ++ pyReprLista xs ++ "]"
  | .jobj fs => "\x7b" ++ pyReprCampos fs ++ "\x7d"

def pyReprLista : List JVal → String
  | [] => ""
  | [x] => pyRepr x
  | x :: y :: t => pyRepr x ++ ", " ++ pyReprLista (y :: t)

def pyReprCampos : List (String × JVal) → String
  | [] => ""
  | [(k, v)] => "\x27" ++ k ++ "\x27: " ++ pyRepr v
  | (k, v) :: y :: t => "\x27" ++ k ++ "\x27: " ++ pyRepr v ++ ", " ++ pyReprCampos (y :: t)
end

/-- Python `str(v)` on JSON-like values (`str` of a container delegates
to `repr`). -/
def pyStr : JVal → String
  | .jnull => "None"
  | .jbool true => "True"
  | .jbool false => "False"
  | .jnum n => toString n
  | .jstr s => s
  | v => pyRepr v

/-! ## Normalizer: `limpiar_respuesta_ia` (`ui_visita.py` 80-181) -/

/-- The `claves_planas` set of `_normalizar_schema`. -/
def claves_planas : List String :=
  ["farmaco", "dosis_mg_kg", "dosis_mg_kg_detectada", "dosis_calculada",
   "frecuencia", "frecuencia_texto", "frecuencia_horas",
   "es_tratamiento_aij", "es_aij", "razon_decision", "razon"]

/-- `"analisis" in obj or "auditoria" in obj or "estado" in obj`. -/
def esquemaEsperado (o : JObj) : Bool :=
  pyIn "analisis" o || pyIn "auditoria" o || pyIn "estado" o

/-- `any(k in obj for k in claves_planas)`. -/
def esquemaPlano (o : JObj) : Bool := claves_planas.any (fun k => pyIn k o)

/-- `es_aij = obj.get("es_aij"); if es_aij is None: es_aij =
obj.get("es_tratamiento_aij")`. -/
def es_aij_de (o : JObj) : JVal :=
  match pyGetV o "es_aij" with
  | .jnull => pyGetV o "es_tratamiento_aij"
  | v => v

/-- The `analisis` sub-object built by the flat reshape. -/
def analisisPlano (o : JObj) : JVal :=
  .jobj [("farmaco", pyGetV o "farmaco"),
         ("dosis_calculada", pyGetV o "dosis_calculada"),
         ("dosis_mg_kg_detectada", pyGetKD o "dosis_mg_kg_detectada" "dosis_mg_kg"),
         ("frecuencia", pyGetKD o "frecuencia" "frecuencia_texto"),
         ("frecuencia_horas", pyGetV o "frecuencia_horas")]

/-- The `auditoria` sub-object built by the flat reshape. -/
def auditoriaPlano (o : JObj) : JVal :=
  .jobj [("es_aij", es_aij_de o),
         ("es_tratamiento_aij", pyGetV o "es_tratamiento_aij"),
         ("razon", pyGetKD o "razon" "razon_decision"),
         ("razon_decision", pyGetV o "razon_decision")]

/-- `estado = obj.get("estado"); if not estado: estado = "Aprobada" if
es_aij is True else "Alerta"`. -/
def estadoPlano (o : JObj) : JVal :=
  let e := pyGetV o "estado"
  if truthy e then e
  else .jstr (if isTrue (es_aij_de o) then "Aprobada" else "Alerta")

/-- The record returned by the flat-schema reshape of
`_normalizar_schema`. -/
def reshapeCampos (o : JObj) : JObj :=
  [("estado", estadoPlano o),
   ("analisis", analisisPlano o),
   ("auditoria", auditoriaPlano o),
   ("decision", pyOr (pyGetV o "decision") (pyGetV o "severidad"))]

/-- `_normalizar_schema(obj)`: `None` for a non-dict, the dict unchanged
when it exposes a canonical key, the reshaped record when it exposes a
flat key, and the dict unchanged otherwise. -/
def normalizar_schema : JVal → Option JVal
  | .jobj o =>
    some (if esquemaEsperado o then .jobj o
          else if esquemaPlano o then .jobj (reshapeCampos o)
          else .jobj o)
  | _ => none

/-- `normalizado = _normalizar_schema(x); return normalizado if
normalizado is not None else x`. -/
def viaNormalizada (v : JVal) : JVal :=
  match normalizar_schema v with
  | some r => r
  | none => v

/-- The record returned for `None` input. -/
def registroError : JObj :=
  [("estado", .jstr "Error"),
   ("analisis", .jobj []),
   ("auditoria", .jobj [("razon", .jstr "No hay respuesta")])]

/-- `texto_raw.replace("**", "").replace("```json", "").replace("```",
"").strip()`. -/
def limpiaTexto (s : String) : String :=
  pyStrip (String.mk (reemplaza "```".data [] (reemplaza "```json".data []
    (reemplaza "**".data [] s.data))))

/-- The emergency fallback record built from the cleaned dirty text. -/
def registroFallback (s : String) : JObj :=
  [("estado", .jstr "Nota del Asistente"),
   ("analisis", .jobj [("farmaco", .jstr "Ver texto"),
                       ("dosis_calculada", .jstr "-")]),
   ("auditoria", .jobj [("es_aij", .jnull),
                        ("razon", .jstr (limpiaTexto s))])]

/-- The dirty-text path of `limpiar_respuesta_ia`: `repair_json` (an
opaque collaborator; `none` models an exception), then the
list/dict/fallback dispatch. -/
def rutaTexto (repair : String → Option JVal) (s : String) : JVal :=
  match repair s with
  | none => .jobj (registroFallback s)
  | some (.jarr (x :: _)) => viaNormalizada x
  | some (.jobj o) => viaNormalizada (.jobj o)
  | some _ => .jobj (registroFallback s)

/-- The shapes a raw advisory result can take at the entry of
`limpiar_respuesta_ia`: `None`, a dict, an object with a `.raw` text
attribute, an object with a `.json_dict` attribute (with the `str()`
form used when that attribute is falsy), or anything else via its
`str()` form. -/
inductive Respuesta where
  | nula
  | dict (d : JObj)
  | conRaw (raw : String)
  | conJsonDict (d : JObj) (sstr : String)
  | texto (s : String)

/-- `limpiar_respuesta_ia(respuesta_obj)` (`ui_visita.py` 80-181),
parameterized by the opaque `repair_json` collaborator. -/
def limpiar_respuesta_ia (repair : String → Option JVal) : Respuesta → JVal
  | .nula => .jobj registroError
  | .dict d => viaNormalizada (.jobj d)
  | .conRaw s => rutaTexto repair s
  | .conJsonDict d sstr =>
    match d with
    | [] => rutaTexto repair sstr
    | _ :: _ => viaNormalizada (.jobj d)
  | .texto s => rutaTexto repair s

/-- Reinterpret a returned record as a raw input again (a dict input is
a dict, Python `None` is the null input, anything else enters as its
`str()` form). -/
def reinterpretar : JVal → Respuesta
  | .jobj d => .dict d
  | .jnull => .nula
  | v => .texto (pyStr v)

/-! ## Classifier: the verdict logic of `render_nueva_visita`
(`ui_visita.py` 489-532) -/

/-- `_coerce_text(value, default)`. -/
def coerce_text (v : JVal) (dflt : String) : String :=
  match v with
  | .jnull => dflt
  | .jobj o => dumps (.jobj o)
  | .jarr xs => dumps (.jarr xs)
  | v => pyStr v

/-- The fixed rejection keywords of `_es_rechazo_por_texto`. -/
def palabras_rechazo : List String :=
  ["contraind", "contraindicad", "no indicado", "no indicada",
   "no recomendado", "no recomendada", "no usar", "no se recomienda",
   "toxic", "toxicidad", "sobredos", "sobredosis", "dosis alta",
   "dosis excesiva", "exceso", "excesiva"]

/-- `_es_rechazo_por_texto(razon_texto)`. -/
def es_rechazo_por_texto (razon : String) : Bool :=
  palabras_rechazo.any (fun w => contiene (toLowerEs razon) w)

/-- `auditoria = res.get("auditoria", {})`, then used with `.get`: a
non-dict stored value makes the later `.get` calls raise
(`none` models that exception). -/
def auditoriaDe (res : JObj) : Option JObj :=
  match lookupK res "auditoria" with
  | none => some []
  | some (.jobj a) => some a
  | some _ => none

/-- `estado = res.get("estado", "Desconocido")`. -/
def estadoDe (res : JObj) : JVal := pyGetD res "estado" (.jstr "Desconocido")

/-- `estado == "Aprobada"` (Python equality against a string literal). -/
def estadoAprobada (res : JObj) : Bool :=
  match estadoDe res with
  | .jstr s => s == "Aprobada"
  | _ => false

/-- The `es_valido` candidate-approved flag. -/
def es_valido_de (res a : JObj) : Bool :=
  estadoAprobada res || isTrue (pyGetV a "es_tratamiento_aij") ||
    isTrue (pyGetV a "es_aij")

/-- `decision_txt = _coerce_text(res.get("decision") or
res.get("severidad") or auditoria.get("decision"),
default="").strip().lower()`. -/
def decision_txt_de (res a : JObj) : String :=
  toLowerEs (pyStrip (coerce_text
    (pyOr (pyGetV res "decision")
      (pyOr (pyGetV res "severidad") (pyGetV a "decision"))) ""))

/-- `razon_texto = _coerce_text(auditoria.get("razon_decision") or
auditoria.get("razon") or res.get("razon_decision") or res.get("razon")
or "")`. -/
def razon_texto_de (res a : JObj) : String :=
  coerce_text
    (pyOr (pyGetV a "razon_decision")
      (pyOr (pyGetV a "razon")
        (pyOr (pyGetV res "razon_decision")
          (pyOr (pyGetV res "razon") (.jstr ""))))) "-"

/-- The `decision` verdict computed in `render_nueva_visita` once
`auditoria` has been read successfully. -/
def clasificarCon (res a : JObj) : String :=
  if contiene (decision_txt_de res a) "aprob" then "Aprobada"
  else if contiene (decision_txt_de res a) "rech" then "Rechazada"
  else if contiene (decision_txt_de res a) "alert" then "Alerta"
  else if es_valido_de res a then "Aprobada"
  else if es_rechazo_por_texto (razon_texto_de res a) then "Rechazada"
  else "Alerta"

/-- The verdict of the classifier on a normalized record (`none` when
the stored `auditoria` value is not a dict and the code raises). -/
def clasificar (res : JObj) : Option String :=
  (auditoriaDe res).map (clasificarCon res)

/-! ## Medication extractor: `_extraer_medicaciones_del_plan`
(`patient_bot.py` 53-151) -/

/-- Does `\s*mg` match at the start of `l`? (the tail of the dose
regex; `\s` is modelled over ASCII whitespace). -/
def coincideSufijoMg (l : List Char) : Bool :=
  empiezaCon ['m', 'g'] (l.dropWhile esEspacioPy)

/-- Match `[^\d]*(\d+(?:[.,]\d+)?)\s*mg` at the start of `rest`,
returning the captured group. Both quantifiers are greedy; a shorter
match of `\d+` (or of the fractional `\d+`) is never possible, since
the abandoned character would be a digit and cannot match `[.,]`,
`\s` or `m`, so only the maximal digit runs are tried. `\d` is
modelled over ASCII digits. -/
def coincideDosis (rest : List Char) : Option (List Char) :=
  let skip := rest.dropWhile (fun c => !c.isDigit)
  let ds := skip.takeWhile Char.isDigit
  if ds.isEmpty then none
  else
    let r2 := skip.drop ds.length
    match r2 with
    | c :: r3 =>
      if c == '.' || c == ',' then
        let fs := r3.takeWhile Char.isDigit
        if !fs.isEmpty && coincideSufijoMg (r3.drop fs.length) then
          some (ds ++ c :: fs)
        else if coincideSufijoMg r2 then some ds else none
      else if coincideSufijoMg r2 then some ds else none
    | [] => if coincideSufijoMg r2 then some ds else none

/-- `re.search(rf"{variante}[^\d]*(\d+(?:[.,]\d+)?)\s*mg",
texto_lower)`: scan start positions left to right; the pattern begins
with the literal variant (no variant contains a regex metacharacter),
so a match can only start at an occurrence of the variant. Returns the
captured dose group of the leftmost match. -/
def buscaDosis (sub : List Char) : List Char → Option (List Char)
  | [] => none
  | c :: t =>
    if empiezaCon sub (c :: t) then
      match coincideDosis ((c :: t).drop sub.length) with
      | some g => some g
      | none => buscaDosis sub t
    else buscaDosis sub t

/-- The day-of-week names scanned for frequencies. -/
def dias_semana : List String :=
  ["lunes", "martes", "miércoles", "jueves", "viernes", "sábado", "domingo"]

/-- The frequency-detection chain over the 100-character context window
after the matched variant. -/
def frecuenciaDe (contexto : String) : String :=
  if contiene contexto "semanal" then "semanal"
  else if contiene contexto "diario" || contiene contexto "cada día" ||
      contiene contexto "/día" then "diario"
  else if contiene contexto "quincenal" || contiene contexto "cada 2 semanas" then
    "cada 2 semanas"
  else if contiene contexto "cada 8 horas" then "cada 8 horas"
  else if contiene contexto "cada 12 horas" then "cada 12 horas"
  else
    match dias_semana.find? (fun dia => contiene contexto dia) with
    | some dia => "los " ++ dia ++ "s"
    | none => ""

/-- The fixed drug table `medicamentos_info` of
`_extraer_medicaciones_del_plan`: canonical name, variants, emoji, in
the source's insertion order. -/
def medicamentos_info : List (String × List String × String) :=
  [("Metotrexato", ["metotrexato", "metotrexate", "mtx"], "💉"),
   ("Ácido Fólico", ["ácido fólico", "acido folico", "ac fólico", "ac folico", "acfol"], "💊"),
   ("Ibuprofeno", ["ibuprofeno", "ibuprofen"], "💊"),
   ("Naproxeno", ["naproxeno"], "💊"),
   ("Prednisona", ["prednisona", "prednisone", "corticoide"], "💊"),
   ("Adalimumab (Humira)", ["adalimumab", "humira"], "💉"),
   ("Tocilizumab", ["tocilizumab", "actemra"], "💉"),
   ("Etanercept", ["etanercept", "enbrel"], "💉")]

/-- Process one drug of the table: first matching variant wins (the
`break` after a hit), dose by the regex search, frequency from the
100-character window after the variant's first occurrence. -/
def procesaMed (textoLower : List Char) (nombre : String)
    (variantes : List String) (emoji : String) : Option String :=
  match variantes.find? (fun v => contieneL v.data textoLower) with
  | none => none
  | some v =>
    let dosis :=
      match buscaDosis v.data textoLower with
      | some g => String.mk g ++ " mg"
      | none => ""
    let contexto :=
      match buscaIdx v.data textoLower with
      | some idx => String.mk ((textoLower.drop idx).take 100)
      | none => ""
    let frecuencia := frecuenciaDe contexto
    some (emoji ++ " **" ++ nombre ++ "**" ++
      (if dosis != "" then " " ++ dosis else "") ++
      (if frecuencia != "" then " (" ++ frecuencia ++ ")" else ""))

/-- `_extraer_medicaciones_del_plan(plan_texto)` (`patient_bot.py`
53-151): `None` for a falsy input, a crash (`.error`) for a truthy
non-string (no `.lower()` attribute), otherwise the formatted,
deduplicated medication lines in table order, or `None` when the list
stays empty. -/
def extraer_medicaciones_del_plan (plan : JVal) : Except Unit (Option (List String)) :=
  if truthy plan = false then .ok none
  else
    match plan with
    | .jstr s =>
      let tl := (toLowerEs s).data
      let meds := medicamentos_info.foldl
        (fun acc m =>
          match procesaMed tl m.1 m.2.1 m.2.2 with
          | some linea => if acc.contains linea then acc else acc ++ [linea]
          | none => acc) []
      .ok (if meds.isEmpty then none else some meds)
    | _ => .error ()

/-! ## Patient-query responder: `responder_duda_paciente`
(`patient_bot.py` 154-322) -/

/-- The external RAG collaborator and its availability flag:
`cargar` models `cargar_conocimiento()` (an `.error` is an uncaught
exception; `.ok none` a falsy store), `consultar` models
`consultar_rag(store, pregunta)` (an `.error` is the exception caught
by the `try`). -/
structure RagEnv where
  disponible : Bool
  cargar : Except Unit (Option Unit)
  consultar : String → Except Unit String

def saludos : List String :=
  ["hola", "buenas", "gracias", "qué tal", "buenos días", "buenas tardes"]

def palabras_urgencia : List String :=
  ["dolor fuerte", "sangre", "fiebre alta", "hinchado", "ahogo", "urgencia", "pecho"]

def palabras_olvido : List String :=
  ["olvidé", "olvide", "olvidado", "perdí", "perdi", "perdido",
   "no me pinché", "no me pinche", "no tomé", "no tome",
   "salté", "salte", "saltado", "me la salté", "se me pasó",
   "ayer no", "no puse", "qué hago", "que hago", "me olvide"]

def palabras_medicacion : List String :=
  ["medicación", "medicacion", "medicamento", "tratamiento",
   "llevo", "tomo", "actual", "ahora", "qué tomo", "que tomo",
   "dosis", "pauta", "inyectar", "pinchar", "pastilla"]

def palabras_citas : List String :=
  ["cita", "próxima visita", "proxima visita", "cuando tengo", "revisión", "revision"]

def saludoTexto (nombre : String) : String :=
  "¡Hola " ++ nombre ++ "! Soy tu asistente virtual de la unidad. Estoy aquí para ayudarte con cualquier duda sobre tu tratamiento o medicación."

def textoUrgencia : String :=
  "⚠️ **DETECTADO SÍNTOMA DE ALERTA**\n\nComo asistente virtual no puedo valorar urgencias médicas. Por favor, acude al hospital o contacta con tu reumatólogo inmediatamente."

def textoOlvidoMetotrexato : String :=
  "⚠️ **Dosis olvidada de Metotrexato**\n\n**Regla general:** Si te olvidaste ayer, puedes ponértela hoy (dentro de las 48h siguientes al día pautado).\n\n📌 **Recomendaciones:**\n• Si han pasado **menos de 2 días**: Ponte la dosis hoy y sigue con tu calendario normal la próxima semana.\n• Si han pasado **más de 2 días**: NO te pongas doble dosis. Salta esta semana y continúa la próxima según tu pauta habitual.\n\n⚠️ **Importante:** Si tienes dudas o esto ocurre con frecuencia, consulta con tu reumatólogo.\n\n💡 Consejo: Activa recordatorios en tu móvil para el día que te toca."

def textoOlvidoFolico : String :=
  "💊 **Dosis olvidada de Ácido Fólico**\n\nNo te preocupes, el ácido fólico es un suplemento y no pasa nada grave si te saltas una dosis.\n\n📌 **Recomendaciones:**\n• Tómalo cuando te acuerdes si es el mismo día.\n• Si ya pasó el día, simplemente continúa con la siguiente dosis programada.\n• **Nunca tomes doble dosis** para compensar."

def textoOlvidoAdalimumab : String :=
  "💉 **Dosis olvidada de Humira/Adalimumab**\n\n📌 **Recomendaciones:**\n• Si te acuerdas **en los primeros días**, ponte la inyección cuanto antes.\n• Luego, ajusta tu calendario para mantener el intervalo de 2 semanas.\n• **No te pongas doble dosis.**\n\n⚠️ Si tienes dudas, contacta con tu reumatólogo o enfermera de la unidad."

def textoOlvidoGenerico : String :=
  "⚠️ **Dosis olvidada de medicación**\n\n📌 **Regla general:**\n• Si te acuerdas el mismo día o al día siguiente, tómala/ponla cuando te acuerdes.\n• Si han pasado más de 2 días, **no tomes doble dosis**. Espera a la siguiente dosis programada.\n\n⚠️ Si tienes dudas sobre tu medicamento específico, consulta con tu reumatólogo o llama a la unidad."

def textoSinPlan : String :=
  "📋 No tienes ningún plan de tratamiento activo. Consulta con tu médico en la próxima visita."

def textoCitas : String :=
  "📅 Las citas se gestionan a través de la secretaría del hospital. Puedes llamar al teléfono de atención o consultar tu portal del paciente para ver tus próximas citas."

def textoFallbackFinal : String :=
  "❓ No tengo información específica sobre eso. Si tienes dudas sobre tu tratamiento, te recomiendo consultarlo con tu médico en la próxima visita o llamar a la unidad."

/-- Python `needle in v` as used on `curso` (a string tests substring,
a dict tests key membership, a list tests element equality; any other
type raises `TypeError`, modelled as `.error`). -/
def pyEnOp (needle : String) (v : JVal) : Except Unit Bool :=
  match v with
  | .jstr s => .ok (contiene s needle)
  | .jobj o => .ok (pyIn needle o)
  | .jarr xs => .ok (xs.any (fun x =>
      match x with
      | .jstr s => s == needle
      | _ => false))
  | _ => .error ()

/-- `curso.split(sep)[-1].strip()`: only a string has `.split`; any
other value raises. -/
def divideTras (curso : JVal) (sep : String) : Except Unit JVal :=
  match curso with
  | .jstr s => .ok (.jstr (pyStrip (String.mk (trasUltimoL sep.data s.data))))
  | _ => .error ()

/-- The `ultimo_plan` computation of the current-medication branch:
`plan_tratamiento` of the last visit if truthy, else the text after
the last `"PLAN:"` (then `"Plan:"`) marker of
`curso_clinico_generado`, else that field itself; `None` when there is
no usable last visit. -/
def ultimo_plan_de (historial : List JVal) : Except Unit JVal :=
  match historial.getLast? with
  | none => .ok .jnull
  | some ultimo =>
    match ultimo with
    | .jobj u =>
      let pd := pyGetD u "plan_tratamiento" (.jstr "")
      if truthy pd then .ok pd
      else
        let curso := pyGetD u "curso_clinico_generado" (.jstr "")
        match pyEnOp "PLAN:" curso with
        | .error e => .error e
        | .ok true => divideTras curso "PLAN:"
        | .ok false =>
          match pyEnOp "Plan:" curso with
          | .error e => .error e
          | .ok true => divideTras curso "Plan:"
          | .ok false => .ok curso
    | _ => .ok .jnull

/-- `if "NO_CONTEXT" not in raw_response and len(raw_response) > 5`. -/
def respuestaUtil (raw : String) : Bool :=
  !contiene raw "NO_CONTEXT" && decide (raw.length > 5)

/-- The session store after the lazy-initialization step: loaded now
when the cache is `None`, the cached handle otherwise. The load call is
outside any `try`, so its exception propagates. -/
def almacenTras (env : RagEnv) (cache : Option Unit) : Except Unit (Option Unit) :=
  match cache with
  | none => env.cargar
  | some v => .ok (some v)

/-- The `respuesta_rag` local: `"NO_CONTEXT"` when the store is falsy,
when the query raises (the `try`/`except`), or when the response is
unusable; the raw response otherwise. -/
def respuestaRag (env : RagEnv) (c1 : Option Unit) (pregunta : String) : String :=
  match c1 with
  | none => "NO_CONTEXT"
  | some _ =>
    match env.consultar pregunta with
    | .error _ => "NO_CONTEXT"
    | .ok raw => if respuestaUtil raw then raw else "NO_CONTEXT"

/-- `responder_duda_paciente(pregunta, historial_paciente,
nombre_paciente)` (`patient_bot.py` 154-322), parameterized by the RAG
collaborator and the session `vectorstore_cache`; returns the answer
and the cache after the call, or `.error` for an uncaught exception. -/
def responder_duda_paciente (env : RagEnv) (cache : Option Unit)
    (pregunta : String) (historial_paciente : List JVal)
    (nombre_paciente : String) : Except Unit (String × Option Unit) :=
  if saludos.contains (toLowerEs pregunta) then
    .ok (saludoTexto nombre_paciente, cache)
  else if palabras_urgencia.any (fun x => contiene (toLowerEs pregunta) x) then
    .ok (textoUrgencia, cache)
  else if palabras_olvido.any (fun x => contiene (toLowerEs pregunta) x) then
    (if ["metotrexato", "metotrexate", "mtx"].any
        (fun x => contiene (toLowerEs pregunta) x) then
      .ok (textoOlvidoMetotrexato, cache)
    else if ["ácido fólico", "acido folico", "fólico", "folico", "acfol"].any
        (fun x => contiene (toLowerEs pregunta) x) then
      .ok (textoOlvidoFolico, cache)
    else if ["humira", "adalimumab"].any (fun x => contiene (toLowerEs pregunta) x) then
      .ok (textoOlvidoAdalimumab, cache)
    else .ok (textoOlvidoGenerico, cache))
  else if palabras_medicacion.any (fun x => contiene (toLowerEs pregunta) x) then
    (match ultimo_plan_de historial_paciente with
     | .error e => .error e
     | .ok ultimo_plan =>
       if truthy ultimo_plan then
         match extraer_medicaciones_del_plan ultimo_plan with
         | .error e => .error e
         | .ok (some medicaciones) =>
           .ok (List.foldl (fun acc med => acc ++ ("• " ++ med ++ "\n"))
                  "💊 **Tu medicación actual:**\n\n" medicaciones ++
                "\n📅 Puedes ver el calendario en la pestaña \x27Mi Calendario\x27 para ver cuándo te toca cada medicación.",
              cache)
         | .ok none =>
           .ok ("📋 **Tu plan de tratamiento actual:**\n\n" ++ pyStr ultimo_plan, cache)
       else .ok (textoSinPlan, cache))
  else if palabras_citas.any (fun x => contiene (toLowerEs pregunta) x) then
    .ok (textoCitas, cache)
  else if env.disponible then
    (match almacenTras env cache with
     | .error e => .error e
     | .ok c1 =>
       if respuestaRag env c1 pregunta != "NO_CONTEXT" then
         .ok ("📚 **Información general:**\n\n" ++ respuestaRag env c1 pregunta, c1)
       else .ok (textoFallbackFinal, c1))
  else .ok (textoFallbackFinal, cache)

/-! ## Predicates and concrete inputs used by the claims -/

/-- A dict entry both present and not `None` (the spec's "key present,
non-null"). -/
def noNulo : Option JVal → Bool
  | some .jnull => false
  | some _ => true
  | none => false

/-- The record is a dict carrying `estado`, `analisis` and `auditoria`,
each non-null. -/
def tresClaves : JVal → Bool
  | .jobj o =>
    noNulo (lookupK o "estado") && noNulo (lookupK o "analisis") &&
      noNulo (lookupK o "auditoria")
  | _ => false

/-- The dict shapes that `_normalizar_schema` reshapes: a flat key is
present and no canonical key is. -/
def reshapeSeguro (o : JObj) : Bool := esquemaPlano o && !esquemaEsperado o

/-- The dirty-text inputs on which the text path yields a record with
all three canonical keys: the repair raises, yields a scalar or an
empty list (fallback record), or yields a flat-shaped dict (directly or
as the head of a list). -/
def textoSeguro (repair : String → Option JVal) (s : String) : Bool :=
  match repair s with
  | none => true
  | some (.jobj o) => reshapeSeguro o
  | some (.jarr (.jobj o :: _)) => reshapeSeguro o
  | some (.jarr (_ :: _)) => false
  | some _ => true

/-- The inputs of `limpiar_respuesta_ia` that avoid the pass-through of
an already-canonical or unrecognized dict (on which the result is the
input itself, whatever keys it has). -/
def entradaSegura (repair : String → Option JVal) : Respuesta → Bool
  | .nula => true
  | .dict d => reshapeSeguro d
  | .conRaw s => textoSeguro repair s
  | .conJsonDict d sstr =>
    match d with
    | [] => textoSeguro repair sstr
    | _ :: _ => reshapeSeguro d
  | .texto s => textoSeguro repair s

/-- A `repair_json` collaborator that always raises. -/
def repairNulo : String → Option JVal := fun _ => none

/-- A `repair_json` collaborator behaving as the real library does on
the already-valid JSON text `[null]`: it parses it. -/
def repairLista : String → Option JVal :=
  fun s => if s == "[null]" then some (.jarr [.jnull]) else none

/-- RAG collaborator absent (`RAG_DISPONIBLE = False`). -/
def envSinRag : RagEnv := ⟨false, .ok none, fun _ => .ok ""⟩

/-- RAG available but `cargar_conocimiento()` raises. -/
def envCargaFalla : RagEnv := ⟨true, .error (), fun _ => .ok "una respuesta larga"⟩

/-- RAG available, store loaded, but `consultar_rag` raises. -/
def envConsultaFalla : RagEnv := ⟨true, .ok (some ()), fun _ => .error ()⟩

/-- The question falls through to the knowledge-lookup branch: no
earlier branch of the cascade matches its lowercased form. -/
def ramaRag (p : String) : Bool :=
  !saludos.contains p &&
  !palabras_urgencia.any (fun x => contiene p x) &&
  !palabras_olvido.any (fun x => contiene p x) &&
  !palabras_medicacion.any (fun x => contiene p x) &&
  !palabras_citas.any (fun x => contiene p x)

/-- The lookup outcome is treated as "no answer": an exception, or a
response containing `NO_CONTEXT`, or one shorter than 6 characters. -/
def ragSinRespuesta : Except Unit String → Bool
  | .error _ => true
  | .ok r => !respuestaUtil r

/-- First character of a string. -/
def primera (s : String) : Option Char := s.data.head?

/-- C1 counterexample input: a dict exposing the canonical key `estado`
(and nothing else). -/
def recC1 : JObj := [("estado", .jstr "ok")]

/-- C2/C2-witness input: approved `estado` but an explicit rejecting
`decision`. -/
def recC2 : JObj := [("estado", .jstr "Aprobada"), ("decision", .jstr "rechazada")]

/-- C3 counterexample input: a flat field together with an explicit
`estado`. -/
def recC3 : JObj := [("farmaco", .jstr "Metotrexato"), ("estado", .jstr "Rechazada")]

/-- C3 witness input: a purely flat record. -/
def recC3w : JObj := [("farmaco", .jstr "MTX")]

/-- The `auditoria` sub-object of the C4 example record. -/
def audC4 : JObj := [("es_aij", .jnull), ("razon", .jstr "dosis excesiva detectada")]

/-- The C4 example record
`{estado:"Alerta", auditoria:{es_aij:null, razon:"dosis excesiva detectada"}}`. -/
def recC4 : JObj := [("estado", .jstr "Alerta"), ("auditoria", .jobj audC4)]

/-- C10 input: flat record with `es_aij = False` and
`es_tratamiento_aij = True`. -/
def recC10 : JObj := [("es_aij", .jbool false), ("es_tratamiento_aij", .jbool true)]

/-- The normalized record the C10 input reshapes to. -/
def recC10norm : JObj :=
  [("estado", .jstr "Alerta"),
   ("analisis", .jobj [("farmaco", .jnull), ("dosis_calculada", .jnull),
                       ("dosis_mg_kg_detectada", .jnull), ("frecuencia", .jnull),
                       ("frecuencia_horas", .jnull)]),
   ("auditoria", .jobj [("es_aij", .jbool false), ("es_tratamiento_aij", .jbool true),
                        ("razon", .jnull), ("razon_decision", .jnull)]),
   ("decision", .jnull)]

/-! ## Supporting lemmas -/

theorem data_append (s t : String) : (s ++ t).data = s.data ++ t.data := by
  cases s
  cases t
  rfl

theorem primera_append {s : String} (t : String) {c : Char}
    (h : primera s = some c) : primera (s ++ t) = some c := by
  unfold primera at h ⊢
  rw [data_append]
  cases hd : s.data with
  | nil => rw [hd] at h; simp at h
  | cons a l =>
    rw [hd] at h
    simp only [List.head?] at h
    simpa using h

theorem primera_foldl (l : List String) (acc : String) (c : Char)
    (h : primera acc = some c) :
    primera (List.foldl (fun a med => a ++ ("• " ++ med ++ "\n")) acc l) = some c := by
  induction l generalizing acc with
  | nil => simpa using h
  | cons m ms ih => exact ih _ (primera_append _ h)

theorem primera_saludo (n : String) : primera (saludoTexto n) = some '¡' := by
  unfold saludoTexto
  exact primera_append _ (primera_append _ rfl)

theorem primera_ne {s t : String} (h : primera s ≠ primera t) : s ≠ t :=
  fun he => h (he ▸ rfl)

theorem noNulo_of_truthy {v : JVal} (h : truthy v = true) : noNulo (some v) = true := by
  cases v <;> simp_all [truthy, noNulo]

theorem esquemaEsperado_reshape (o : JObj) : esquemaEsperado (reshapeCampos o) = true := rfl

theorem tresClaves_reshape (o : JObj) : tresClaves (.jobj (reshapeCampos o)) = true := by
  show (noNulo (some (estadoPlano o)) && noNulo (some (analisisPlano o)) &&
    noNulo (some (auditoriaPlano o))) = true
  have he : noNulo (some (estadoPlano o)) = true := by
    unfold estadoPlano
    by_cases h : truthy (pyGetV o "estado") = true
    · rw [if_pos h]
      exact noNulo_of_truthy h
    · rw [if_neg h]
      rfl
  rw [he]
  rfl

theorem viaNormalizada_obj (o : JObj) :
    viaNormalizada (.jobj o) =
      if esquemaEsperado o then .jobj o
      else if esquemaPlano o then .jobj (reshapeCampos o)
      else .jobj o := rfl

theorem viaNormalizada_fix {o r : JObj} (h : viaNormalizada (.jobj o) = .jobj r) :
    viaNormalizada (.jobj r) = .jobj r := by
  rw [viaNormalizada_obj] at h
  by_cases h1 : esquemaEsperado o = true
  · rw [if_pos h1] at h
    injection h with h'
    subst h'
    rw [viaNormalizada_obj, if_pos h1]
  · rw [if_neg h1] at h
    by_cases h2 : esquemaPlano o = true
    · rw [if_pos h2] at h
      injection h with h'
      subst h'
      rw [viaNormalizada_obj, if_pos (esquemaEsperado_reshape o)]
    · rw [if_neg h2] at h
      injection h with h'
      subst h'
      rw [viaNormalizada_obj, if_neg h1, if_neg h2]

theorem rutaTexto_fix {repair : String → Option JVal} {s : String} {d : JObj}
    (h : rutaTexto repair s = .jobj d) : viaNormalizada (.jobj d) = .jobj d := by
  unfold rutaTexto at h
  cases hr : repair s with
  | none =>
    rw [hr] at h
    injection h with h'
    subst h'
    rfl
  | some v =>
    rw [hr] at h
    cases v with
    | jobj o => exact viaNormalizada_fix h
    | jarr xs =>
      cases xs with
      | nil =>
        injection h with h'
        subst h'
        rfl
      | cons x t =>
        cases x with
        | jobj o => exact viaNormalizada_fix h
        | jnull => simp [viaNormalizada, normalizar_schema] at h
        | jbool b => simp [viaNormalizada, normalizar_schema] at h
        | jnum n => simp [viaNormalizada, normalizar_schema] at h
        | jstr t => simp [viaNormalizada, normalizar_schema] at h
        | jarr ys => simp [viaNormalizada, normalizar_schema] at h
    | jnull => injection h with h'; subst h'; rfl
    | jbool b => injection h with h'; subst h'; rfl
    | jnum n => injection h with h'; subst h'; rfl
    | jstr t => injection h with h'; subst h'; rfl

theorem tresClaves_rutaTexto {repair : String → Option JVal} {s : String}
    (h : textoSeguro repair s = true) : tresClaves (rutaTexto repair s) = true := by
  unfold textoSeguro at h
  unfold rutaTexto
  cases hr : repair s with
  | none => rfl
  | some v =>
    rw [hr] at h
    cases v with
    | jobj o =>
      have h' : reshapeSeguro o = true := h
      simp only [reshapeSeguro, Bool.and_eq_true, Bool.not_eq_true'] at h'
      show tresClaves (viaNormalizada (JVal.jobj o)) = true
      rw [viaNormalizada_obj, if_neg (by rw [h'.2]; exact Bool.false_ne_true),
        if_pos h'.1]
      exact tresClaves_reshape o
    | jarr xs =>
      cases xs with
      | nil => rfl
      | cons x t =>
        cases x with
        | jobj o =>
          have h' : reshapeSeguro o = true := h
          simp only [reshapeSeguro, Bool.and_eq_true, Bool.not_eq_true'] at h'
          show tresClaves (viaNormalizada (JVal.jobj o)) = true
          rw [viaNormalizada_obj, if_neg (by rw [h'.2]; exact Bool.false_ne_true),
            if_pos h'.1]
          exact tresClaves_reshape o
        | jnull => exact absurd h (by simp)
        | jbool b => exact absurd h (by simp)
        | jnum n => exact absurd h (by simp)
        | jstr u => exact absurd h (by simp)
        | jarr ys => exact absurd h (by simp)
    | jnull => rfl
    | jbool b => rfl
    | jnum n => rfl
    | jstr u => rfl

/-! ## Claims -/

/-- C2: for every normalized record whose resolved decision/severity
text (the code's `decision_txt`) contains "rech" and not "aprob", the
classifier returns the `Rechazada` verdict, overriding any approval
inferred from `estado` or the `auditoria` flags. -/
theorem c2_theorem (res a : JObj) (ha : auditoriaDe res = some a)
    (h1 : contiene (decision_txt_de res a) "rech" = true)
    (h2 : contiene (decision_txt_de res a) "aprob" = false) :
    clasificar res = some "Rechazada" := by
  unfold clasificar
  rw [ha]
  show some (clasificarCon res a) = some "Rechazada"
  unfold clasificarCon
  rw [h1, h2]
  simp

/-- C2 witness: the record with `estado = "Aprobada"` and
`decision = "rechazada"` is classified `Rechazada`. -/
theorem c2_witness : clasificar recC2 = some "Rechazada" :=
  c2_theorem recC2 [] rfl rfl rfl

/-- C4: for a normalized record with no decision/severity field
anywhere the classifier looks and with the candidate-approved flag
false, the verdict is `Rechazada` exactly when the resolved
justification text matches a rejection keyword, and `Alerta`
otherwise. -/
theorem c4_theorem (res a : JObj) (ha : auditoriaDe res = some a)
    (hd : lookupK res "decision" = none) (hsv : lookupK res "severidad" = none)
    (had : lookupK a "decision" = none)
    (he : estadoAprobada res = false)
    (ht : isTrue (pyGetV a "es_tratamiento_aij") = false)
    (hai : isTrue (pyGetV a "es_aij") = false) :
    clasificar res =
      some (if es_rechazo_por_texto (razon_texto_de res a) then "Rechazada"
            else "Alerta") := by
  have hdt : decision_txt_de res a = "" := by
    unfold decision_txt_de pyGetV
    rw [hd, hsv, had]
    rfl
  have hv : es_valido_de res a = false := by
    unfold es_valido_de
    rw [he, ht, hai]
    rfl
  unfold clasificar
  rw [ha]
  show some (clasificarCon res a) = _
  unfold clasificarCon
  rw [hdt, hv]
  simp [show contiene "" "aprob" = false from rfl,
    show contiene "" "rech" = false from rfl,
    show contiene "" "alert" = false from rfl]

/-- C4 witness: the spec's example record (no decision field, flag
false, justification "dosis excesiva detectada") is classified
`Rechazada` by the keyword scan. -/
theorem c4_witness : clasificar recC4 = some "Rechazada" := by
  rw [c4_theorem recC4 audC4 rfl rfl rfl rfl rfl rfl rfl]
  rfl

/-- C8: the example plan text yields exactly the two expected mentions
in drug-table order; on the occurrence-reversed text the output still
lists Metotrexato first (table order, not occurrence order; note the
100-character context window then also picks up "semanal" for Ácido
Fólico). -/
theorem c8_theorem :
    extraer_medicaciones_del_plan
        (.jstr "Metotrexato 15 mg semanal y Ácido Fólico 5 mg diario") =
      .ok (some ["💉 **Metotrexato** 15 mg (semanal)",
                 "💊 **Ácido Fólico** 5 mg (diario)"])
    ∧ extraer_medicaciones_del_plan
        (.jstr "Ácido Fólico 5 mg diario y Metotrexato 15 mg semanal") =
      .ok (some ["💉 **Metotrexato** 15 mg (semanal)",
                 "💊 **Ácido Fólico** 5 mg (semanal)"]) :=
  ⟨rfl, rfl⟩

/-- C10: the flat record with `es_aij = False` and
`es_tratamiento_aij = True` is reshaped with derived
`estado = "Alerta"` (the `False` value is kept, not replaced by the
`es_tratamiento_aij` fallback), yet the classifier approves the
resulting record because `es_tratamiento_aij is True` alone sets the
candidate-approved flag. -/
theorem c10_theorem :
    limpiar_respuesta_ia repairNulo (.dict recC10) = .jobj recC10norm
    ∧ lookupK recC10norm "estado" = some (.jstr "Alerta")
    ∧ clasificar recC10norm = some "Aprobada" :=
  ⟨rfl, rfl, rfl⟩

/-- C6 counterexample: the claim's exact question
"se me olvidó la pinchada de metotrexato" does not match any
missed-dose keyword ("olvidó" is not in the list, only "olvidé" /
"olvide" / "olvidado" / "me olvide" are), so the responder falls
through to the final fallback instead of the methotrexate protocol. -/
theorem c6_counterexample :
    responder_duda_paciente envSinRag none
        "se me olvidó la pinchada de metotrexato" [] "Ana" =
      .ok (textoFallbackFinal, none)
    ∧ textoFallbackFinal ≠ textoOlvidoMetotrexato :=
  ⟨rfl, by decide⟩

/-- C6 (amended): with the first-person phrasing "olvidé la pinchada de
metotrexato" the missed-dose branch fires and returns the
methotrexate-specific protocol text verbatim, for every RAG
environment, cache state, visit history and patient name. -/
theorem c6_theorem (env : RagEnv) (cache : Option Unit)
    (historial : List JVal) (nombre : String) :
    responder_duda_paciente env cache "olvidé la pinchada de metotrexato"
        historial nombre =
      .ok (textoOlvidoMetotrexato, cache) := rfl

/-- C5 counterexample: when `cargar_conocimiento()` raises, the
exception propagates out of `responder_duda_paciente` (the load call is
outside the `try`), contradicting the claim that knowledge-lookup
exceptions are always contained. -/
theorem c5_counterexample :
    responder_duda_paciente envCargaFalla none "zzz" [] "Ana" = .error () := rfl

/-- C9 counterexample: on a raw text whose repair yields the list
`[null]`, the normalizer returns Python `None` itself; feeding that
record back yields the error record, not the same value, so the
normalizer is not idempotent on all inputs. -/
theorem c9_counterexample :
    limpiar_respuesta_ia repairLista (.conRaw "[null]") = JVal.jnull
    ∧ limpiar_respuesta_ia repairLista (reinterpretar JVal.jnull) ≠ JVal.jnull :=
  ⟨rfl, fun h => by simp [limpiar_respuesta_ia, reinterpretar] at h⟩

/-- C1 counterexample: a dict exposing only the canonical key `estado`
is passed through unchanged, so the returned record lacks the
`analisis` (and `auditoria`) keys, refuting the claim that every input
yields all three keys non-null. -/
theorem c1_counterexample :
    limpiar_respuesta_ia repairNulo (.dict recC1) = .jobj recC1
    ∧ lookupK recC1 "analisis" = none
    ∧ tresClaves (limpiar_respuesta_ia repairNulo (.dict recC1)) = false :=
  ⟨rfl, rfl, rfl⟩

/-- C1 (amended): away from the pass-through cases (a dict exposing a
canonical key, a dict exposing no known key at all, and a repaired list
whose head is not a dict — all returned as-is), the normalizer always
yields a record carrying `estado`, `analisis` and `auditoria`, each
non-null: this covers null input, flat-shaped dicts, raw/pre-parsed
objects with flat content, and any dirty text whose repair fails or
yields a scalar, an empty list, or a flat-shaped dict. -/
theorem c1_theorem (repair : String → Option JVal) (x : Respuesta)
    (h : entradaSegura repair x = true) :
    tresClaves (limpiar_respuesta_ia repair x) = true := by
  cases x with
  | nula => rfl
  | dict d =>
    have h' : reshapeSeguro d = true := h
    simp only [reshapeSeguro, Bool.and_eq_true, Bool.not_eq_true'] at h'
    show tresClaves (viaNormalizada (JVal.jobj d)) = true
    rw [viaNormalizada_obj, if_neg (by rw [h'.2]; exact Bool.false_ne_true),
      if_pos h'.1]
    exact tresClaves_reshape d
  | conRaw s => exact tresClaves_rutaTexto h
  | texto s => exact tresClaves_rutaTexto h
  | conJsonDict d sstr =>
    cases d with
    | nil => exact tresClaves_rutaTexto h
    | cons p t =>
      have h' : reshapeSeguro (p :: t) = true := h
      simp only [reshapeSeguro, Bool.and_eq_true, Bool.not_eq_true'] at h'
      show tresClaves (viaNormalizada (JVal.jobj (p :: t))) = true
      rw [viaNormalizada_obj, if_neg (by rw [h'.2]; exact Bool.false_ne_true),
        if_pos h'.1]
      exact tresClaves_reshape (p :: t)

/-- C1 witness: null input is a safe input and its error record carries
the three keys. -/
theorem c1_witness :
    entradaSegura repairNulo Respuesta.nula = true
    ∧ tresClaves (limpiar_respuesta_ia repairNulo Respuesta.nula) = true :=
  ⟨rfl, c1_theorem repairNulo Respuesta.nula rfl⟩

/-- C3 counterexample: a dict with a flat field and an explicit
`estado` is detected as canonical-shaped and passed through unchanged —
`analisis` and `auditoria` are not built from the flat fields, refuting
the claim's exception clause. -/
theorem c3_counterexample :
    normalizar_schema (.jobj recC3) = some (.jobj recC3)
    ∧ lookupK recC3 "analisis" = none
    ∧ lookupK recC3 "auditoria" = none :=
  ⟨rfl, rfl, rfl⟩

/-- C3 (amended): the flat reshape fires only on dicts with a flat key
and no canonical key — such a dict can never carry `estado` — and then
`analisis` is built from the drug/dose/frequency flat fields,
`auditoria` from the relevance/justification flat fields, and `estado`
is always derived: `"Aprobada"` exactly when the AIJ-relevance value
(`es_aij`, falling back to `es_tratamiento_aij` when `es_aij` is
null/absent) is exactly `True`, else `"Alerta"`. A flat-shaped dict
that does carry `estado` is instead passed through without
reshaping. -/
theorem c3_theorem (d : JObj) (h1 : esquemaEsperado d = false)
    (h2 : esquemaPlano d = true) :
    normalizar_schema (.jobj d) =
      some (.jobj
        [("estado", .jstr (if isTrue (es_aij_de d) then "Aprobada" else "Alerta")),
         ("analisis", analisisPlano d),
         ("auditoria", auditoriaPlano d),
         ("decision", pyOr (pyGetV d "decision") (pyGetV d "severidad"))])
    ∧ lookupK d "estado" = none := by
  have h5 : pyIn "estado" d = false := by
    have h4 := h1
    unfold esquemaEsperado at h4
    cases hh : pyIn "estado" d
    · rfl
    · rw [hh] at h4
      simp at h4
  have h3 : lookupK d "estado" = none := by
    unfold pyIn at h5
    cases hx : lookupK d "estado"
    · rfl
    · rw [hx] at h5
      simp at h5
  have hnull : pyGetV d "estado" = JVal.jnull := by
    unfold pyGetV
    rw [h3]
    rfl
  have hle : normalizar_schema (.jobj d) = some (.jobj (reshapeCampos d)) := by
    show some (if esquemaEsperado d = true then JVal.jobj d
        else if esquemaPlano d = true then JVal.jobj (reshapeCampos d)
        else JVal.jobj d) =
      some (JVal.jobj (reshapeCampos d))
    rw [if_neg (by rw [h1]; exact Bool.false_ne_true), if_pos h2]
  refine ⟨?_, h3⟩
  rw [hle]
  simp only [reshapeCampos, estadoPlano, hnull, truthy]
  simp

/-- C3 witness: the purely flat record `{"farmaco": "MTX"}` is reshaped
with derived `estado`. -/
theorem c3_witness :
    normalizar_schema (.jobj recC3w) =
      some (.jobj
        [("estado", .jstr (if isTrue (es_aij_de recC3w) then "Aprobada" else "Alerta")),
         ("analisis", analisisPlano recC3w),
         ("auditoria", auditoriaPlano recC3w),
         ("decision", pyOr (pyGetV recC3w "decision") (pyGetV recC3w "severidad"))])
    ∧ lookupK recC3w "estado" = none :=
  c3_theorem recC3w rfl rfl

/-- C5 (amended): for a question that reaches the knowledge-lookup
branch with the store available, an exception raised by
`consultar_rag` is contained and treated exactly like a `NO_CONTEXT`
or shorter-than-6-characters response: the responder returns the fixed
final-fallback message. (An exception during store loading, by
contrast, propagates: see the counterexample.) -/
theorem c5_theorem (env : RagEnv) (cache : Option Unit) (pregunta : String)
    (historial : List JVal) (nombre : String)
    (hbr : ramaRag (toLowerEs pregunta) = true)
    (hdisp : env.disponible = true)
    (hcarga : almacenTras env cache = .ok (some ()))
    (hfail : ragSinRespuesta (env.consultar pregunta) = true) :
    responder_duda_paciente env cache pregunta historial nombre =
      .ok (textoFallbackFinal, some ()) := by
  unfold ramaRag at hbr
  simp only [Bool.and_eq_true, Bool.not_eq_true'] at hbr
  obtain ⟨⟨⟨⟨g1, g2⟩, g3⟩, g4⟩, g5⟩ := hbr
  unfold responder_duda_paciente
  rw [if_neg (by rw [g1]; exact Bool.false_ne_true),
    if_neg (by rw [g2]; exact Bool.false_ne_true),
    if_neg (by rw [g3]; exact Bool.false_ne_true),
    if_neg (by rw [g4]; exact Bool.false_ne_true),
    if_neg (by rw [g5]; exact Bool.false_ne_true),
    if_pos hdisp, hcarga]
  cases hc : env.consultar pregunta with
  | error e => simp [respuestaRag, hc]
  | ok r =>
    rw [hc] at hfail
    have hru : respuestaUtil r = false := by
      unfold ragSinRespuesta at hfail
      rw [Bool.not_eq_true'] at hfail
      exact hfail
    simp [respuestaRag, hc, hru]

/-- C5 witness: with the store cached and a query that raises, a
neutral question gets the final fallback. -/
theorem c5_witness :
    responder_duda_paciente envConsultaFalla (some ()) "zzz" [] "Ana" =
      .ok (textoFallbackFinal, some ()) :=
  c5_theorem envConsultaFalla (some ()) "zzz" [] "Ana" rfl rfl rfl rfl

/-- C9 (amended): the normalizer is idempotent on every input whose
result is a dict (which is every case except a repaired non-empty list
whose head is not a dict): reinterpreting such a record as raw input
and normalizing again returns it unchanged. -/
theorem c9_theorem (repair : String → Option JVal) (x : Respuesta) (d : JObj)
    (h : limpiar_respuesta_ia repair x = .jobj d) :
    limpiar_respuesta_ia repair (reinterpretar (.jobj d)) = .jobj d := by
  show viaNormalizada (.jobj d) = .jobj d
  cases x with
  | nula =>
    have h' : JVal.jobj registroError = .jobj d := h
    injection h' with h''
    subst h''
    rfl
  | dict d0 => exact viaNormalizada_fix (h : viaNormalizada (JVal.jobj d0) = JVal.jobj d)
  | conRaw s => exact rutaTexto_fix (h : rutaTexto repair s = JVal.jobj d)
  | texto s => exact rutaTexto_fix (h : rutaTexto repair s = JVal.jobj d)
  | conJsonDict d0 sstr =>
    cases d0 with
    | nil => exact rutaTexto_fix (h : rutaTexto repair sstr = JVal.jobj d)
    | cons p t =>
      exact viaNormalizada_fix (h : viaNormalizada (JVal.jobj (p :: t)) = JVal.jobj d)

/-- C9 witness: the error record produced for null input is a fixpoint
of the normalizer. -/
theorem c9_witness :
    limpiar_respuesta_ia repairNulo (reinterpretar (.jobj registroError)) =
      .jobj registroError :=
  c9_theorem repairNulo .nula registroError rfl

/-- Every non-greeting branch of the responder returns either an
exception or a string whose first character differs from the
greeting's opening `¡`. -/
theorem c7_aux (env : RagEnv) (cache : Option Unit) (pregunta : String)
    (historial : List JVal) (nombre : String) (s : String) (c' : Option Unit)
    (hs : saludos.contains (toLowerEs pregunta) = false)
    (h : responder_duda_paciente env cache pregunta historial nombre = .ok (s, c')) :
    primera s ≠ some '¡' := by
  unfold responder_duda_paciente at h
  rw [if_neg (by rw [hs]; exact Bool.false_ne_true)] at h
  by_cases h2 : palabras_urgencia.any (fun x => contiene (toLowerEs pregunta) x) = true
  · rw [if_pos h2] at h
    injection h with h'
    rw [Prod.mk.injEq] at h'
    obtain ⟨hA, hB⟩ := h'
    subst hA
    decide
  · rw [if_neg h2] at h
    by_cases h3 : palabras_olvido.any (fun x => contiene (toLowerEs pregunta) x) = true
    · rw [if_pos h3] at h
      by_cases m1 : ["metotrexato", "metotrexate", "mtx"].any
          (fun x => contiene (toLowerEs pregunta) x) = true
      · rw [if_pos m1] at h
        injection h with h'
        rw [Prod.mk.injEq] at h'
        obtain ⟨hA, hB⟩ := h'
        subst hA
        decide
      · rw [if_neg m1] at h
        by_cases m2 : ["ácido fólico", "acido folico", "fólico", "folico", "acfol"].any
            (fun x => contiene (toLowerEs pregunta) x) = true
        · rw [if_pos m2] at h
          injection h with h'
          rw [Prod.mk.injEq] at h'
          obtain ⟨hA, hB⟩ := h'
          subst hA
          decide
        · rw [if_neg m2] at h
          by_cases m3 : ["humira", "adalimumab"].any
              (fun x => contiene (toLowerEs pregunta) x) = true
          · rw [if_pos m3] at h
            injection h with h'
            rw [Prod.mk.injEq] at h'
            obtain ⟨hA, hB⟩ := h'
            subst hA
            decide
          · rw [if_neg m3] at h
            injection h with h'
            rw [Prod.mk.injEq] at h'
            obtain ⟨hA, hB⟩ := h'
            subst hA
            decide
    · rw [if_neg h3] at h
      by_cases h4 : palabras_medicacion.any (fun x => contiene (toLowerEs pregunta) x) = true
      · rw [if_pos h4] at h
        split at h
        · exact absurd h (by simp)
        · rename_i up hup
          split at h
          · split at h
            · exact absurd h (by simp)
            · rename_i meds hmeds
              injection h with h'
              rw [Prod.mk.injEq] at h'
              obtain ⟨hA, hB⟩ := h'
              subst hA
              rw [primera_append _ (primera_foldl meds "💊 **Tu medicación actual:**\n\n" '💊'
                (show primera "💊 **Tu medicación actual:**\n\n" = some '💊' from rfl))]
              decide
            · injection h with h'
              rw [Prod.mk.injEq] at h'
              obtain ⟨hA, hB⟩ := h'
              subst hA
              rw [primera_append (pyStr up)
                (show primera "📋 **Tu plan de tratamiento actual:**\n\n" = some '📋' from rfl)]
              decide
          · injection h with h'
            rw [Prod.mk.injEq] at h'
            obtain ⟨hA, hB⟩ := h'
            subst hA
            decide
      · rw [if_neg h4] at h
        by_cases h5 : palabras_citas.any (fun x => contiene (toLowerEs pregunta) x) = true
        · rw [if_pos h5] at h
          injection h with h'
          rw [Prod.mk.injEq] at h'
          obtain ⟨hA, hB⟩ := h'
          subst hA
          decide
        · rw [if_neg h5] at h
          by_cases h6 : env.disponible = true
          · rw [if_pos h6] at h
            split at h
            · exact absurd h (by simp)
            · rename_i c1 hc1
              by_cases h7 : (respuestaRag env c1 pregunta != "NO_CONTEXT") = true
              · rw [if_pos h7] at h
                injection h with h'
                rw [Prod.mk.injEq] at h'
                obtain ⟨hA, hB⟩ := h'
                subst hA
                rw [primera_append (respuestaRag env c1 pregunta)
                  (show primera "📚 **Información general:**\n\n" = some '📚' from rfl)]
                decide
              · rw [if_neg h7] at h
                injection h with h'
                rw [Prod.mk.injEq] at h'
                obtain ⟨hA, hB⟩ := h'
                subst hA
                decide
          · rw [if_neg h6] at h
            injection h with h'
            rw [Prod.mk.injEq] at h'
            obtain ⟨hA, hB⟩ := h'
            subst hA
            decide

/-- C7 (amended): the greeting branch fires exactly when the lowercased
question — with no trimming of surrounding whitespace — equals one of
the six fixed greeting phrases, and then the personalized greeting is
returned with every other branch skipped; in particular
`respond("hola", [], "Lucía")` returns the greeting. -/
theorem c7_theorem :
    (∀ (env : RagEnv) (cache : Option Unit) (pregunta : String)
        (historial : List JVal) (nombre : String),
      responder_duda_paciente env cache pregunta historial nombre =
          .ok (saludoTexto nombre, cache)
        ↔ saludos.contains (toLowerEs pregunta) = true)
    ∧ responder_duda_paciente envSinRag none "hola" [] "Lucía" =
        .ok (saludoTexto "Lucía", none) := by
  constructor
  · intro env cache pregunta historial nombre
    constructor
    · intro h
      by_contra hk
      have hsF : saludos.contains (toLowerEs pregunta) = false := by
        cases hx : saludos.contains (toLowerEs pregunta)
        · rfl
        · exact absurd hx hk
      exact absurd (primera_saludo nombre)
        (c7_aux env cache pregunta historial nombre _ _ hsF h)
    · intro hsal
      unfold responder_duda_paciente
      rw [if_pos hsal]
  · rfl

/-- C7 counterexample: the question `" hola"` equals `"hola"` after
trimming, yet the greeting branch does not fire (the code never trims),
so the claim's "lowercased and trimmed" condition is wrong. -/
theorem c7_counterexample :
    pyStrip (toLowerEs " hola") = "hola"
    ∧ saludos.contains (pyStrip (toLowerEs " hola")) = true
    ∧ responder_duda_paciente envSinRag none " hola" [] "Lucía" =
        .ok (textoFallbackFinal, none)
    ∧ textoFallbackFinal ≠ saludoTexto "Lucía" :=
  ⟨rfl, rfl, rfl, by decide⟩

/-- C7 witness: an application of the greeting equivalence at a
concrete greeting. -/
theorem c7_witness :
    responder_duda_paciente envSinRag none "buenas" [] "Ana" =
      .ok (saludoTexto "Ana", none) :=
  (c7_theorem.1 envSinRag none "buenas" [] "Ana").mpr (by decide)

end AIJ
